import Mathlib

/-!
Shallow embedding of the Flightradar24 MCP server core (src/api-client.ts and
the tool entry points in src/tools), together with theorems checking the
specification's claims about it.

Modelling conventions:
* JavaScript numbers are modelled as `Int` (no claim depends on non-integral
  or overflow behaviour).
* A value that may be `null`/`undefined` in TypeScript is an `Option`.
* The network is an oracle `net : Nat → HttpOutcome β` giving the outcome of
  the n-th HTTP GET performed by one call chain; `β` is the parsed response
  body (`response.data as T`).
* `McpError` is an error-code/message pair, mirroring the SDK class.
* Every operation returns a `RunResult`, recording besides the outcome the
  list of issued requests (endpoint and query parameters, in order) and the
  list of backoff sleeps (in ms, in order), so that claims about "how many
  network calls" and "which parameters were sent" are statable.
-/

namespace FR24

/-- Error codes of `McpError` used by the source (`ErrorCode` from the MCP SDK). -/
inductive ErrorCode where
  | InvalidParams
  | InvalidRequest
  | InternalError
deriving DecidableEq, Repr

/-- `McpError` from the MCP SDK: an error code plus a message string. -/
structure McpError where
  code : ErrorCode
  message : String
deriving DecidableEq, Repr

/-- The `ENDPOINTS` constant object of api-client.ts. -/
structure Endpoints where
  FLIGHT_DATA : String
  FLIGHT_INFO : String
  AIRPORT_DATA : String
  AIRLINE_DATA : String
  AIRCRAFT_DATA : String
  ZONES : String

def ENDPOINTS : Endpoints :=
  { FLIGHT_DATA := "/flights"
    FLIGHT_INFO := "/flight/info"
    AIRPORT_DATA := "/airports"
    AIRLINE_DATA := "/airlines"
    AIRCRAFT_DATA := "/aircraft"
    ZONES := "/zones" }

/-- The `ERROR_MESSAGES` constant object of api-client.ts. -/
structure ErrorMessages where
  MISSING_API_KEY : String
  RATE_LIMIT_EXCEEDED : String
  INVALID_API_KEY : String
  API_ERROR : String
  NETWORK_ERROR : String

def ERROR_MESSAGES : ErrorMessages :=
  { MISSING_API_KEY := "Flightradar24 API key is required"
    RATE_LIMIT_EXCEEDED := "Rate limit exceeded for Flightradar24 API"
    INVALID_API_KEY := "Invalid Flightradar24 API key"
    API_ERROR := "Flightradar24 API error"
    NETWORK_ERROR := "Network error while connecting to Flightradar24 API" }

/-- The configuration held by `Flightradar24ApiClient`: its private fields
`apiKey`, `baseUrl`, the axios timeout, `retryDelay` and `maxRetries`. -/
structure ClientConfig where
  apiKey : String
  baseUrl : String
  timeout : Nat
  retryDelay : Nat
  maxRetries : Nat
deriving DecidableEq, Repr

/-- The field initializers of `Flightradar24ApiClient`: `baseUrl`,
timeout 10000 ms, `retryDelay` 1000 ms, `maxRetries` 3. -/
def defaultClient (apiKey : String) : ClientConfig :=
  { apiKey := apiKey
    baseUrl := "https://api.flightradar24.com/v1"
    timeout := 10000
    retryDelay := 1000
    maxRetries := 3 }

/-- The constructor of `Flightradar24ApiClient`: `if (!apiKey) throw new
McpError(ErrorCode.InvalidParams, ERROR_MESSAGES.MISSING_API_KEY)`; a string
argument is falsy exactly when it is empty. -/
def mkClient (apiKey : String) : Except McpError ClientConfig :=
  if apiKey = "" then
    .error ⟨.InvalidParams, ERROR_MESSAGES.MISSING_API_KEY⟩
  else
    .ok (defaultClient apiKey)

/-- Outcome of one HTTP GET, as axios presents it to the catch block:
a 2xx response with parsed body, an error response with a status code and
(already JSON-stringified) body, an axios error without any response
(network failure), or a non-axios exception. -/
inductive HttpOutcome (β : Type) where
  | ok (body : β)
  | status (code : Nat) (dataStr : String)
  | noResponse
  | nonAxios
deriving DecidableEq, Repr

/-- What a call chain can throw: an `McpError`, or a re-thrown non-axios
exception (the final `throw error` of `makeRequest`). -/
inductive Thrown where
  | mcpError (e : McpError)
  | nonAxiosThrown
deriving DecidableEq, Repr

/-- Result of a call chain: the value returned or error thrown, together
with the trace of issued requests (endpoint, query parameters) and of
backoff sleeps (ms), both in order. -/
structure RunResult (β : Type) (π : Type) where
  result : Except Thrown β
  requests : List (String × π)
  delays : List Nat
deriving Repr

/-- `makeRequest` of api-client.ts. `net n` is the outcome of the n-th GET
of this chain (`callIdx` the index of the next one); the request itself is
`(endpoint, params)`. On 429 with `retryCount < maxRetries` it sleeps
`retryDelay * 2 ^ retryCount` and re-issues the same request with the
attempt count incremented; on 401 it throws `INVALID_API_KEY`; on any other
error response it throws `API_ERROR` with status and stringified body; with
no response it throws `NETWORK_ERROR`; a non-axios exception is re-thrown. -/
def makeRequest {β π : Type} (cfg : ClientConfig) (net : Nat → HttpOutcome β)
    (endpoint : String) (params : π) (retryCount : Nat) (callIdx : Nat) :
    RunResult β π :=
  match net callIdx with
  | .ok body => ⟨.ok body, [(endpoint, params)], []⟩
  | .status s dataStr =>
    if h : s = 429 ∧ retryCount < cfg.maxRetries then
      let rest := makeRequest cfg net endpoint params (retryCount + 1) (callIdx + 1)
      ⟨rest.result, (endpoint, params) :: rest.requests,
        cfg.retryDelay * 2 ^ retryCount :: rest.delays⟩
    else if s = 401 then
      ⟨.error (.mcpError ⟨.InvalidRequest, ERROR_MESSAGES.INVALID_API_KEY⟩),
        [(endpoint, params)], []⟩
    else
      ⟨.error (.mcpError ⟨.InternalError,
          ERROR_MESSAGES.API_ERROR ++ ": " ++ toString s ++ " - " ++ dataStr⟩),
        [(endpoint, params)], []⟩
  | .noResponse =>
    ⟨.error (.mcpError ⟨.InternalError, ERROR_MESSAGES.NETWORK_ERROR⟩),
      [(endpoint, params)], []⟩
  | .nonAxios => ⟨.error .nonAxiosThrown, [(endpoint, params)], []⟩
termination_by cfg.maxRetries - retryCount
decreasing_by simp_wf; omega

/-! ## Domain records (the TypeScript interfaces of api-client.ts) -/

/-- `FlightData`: one flight summary as returned by search and zone queries. -/
structure FlightData where
  flight : String
  lat : Int
  lng : Int
  alt : Int
  speed : Int
  heading : Int
  aircraft : String
  registration : String
  origin : String
  destination : String
  callsign : String
  airline : String
  time : Int
  status : String
deriving DecidableEq, Repr

/-- An iata/icao code pair, used in several places of `FlightDetails`,
`AirlineData` and the airport references. -/
structure CodePair where
  iata : String
  icao : String
deriving DecidableEq, Repr

structure FlightNumber where
  default : String
  alternative : Option String
deriving DecidableEq, Repr

structure FlightIdentification where
  id : String
  callsign : String
  number : FlightNumber
deriving DecidableEq, Repr

structure GenericStatusText where
  text : String
  color : String
  type : String
deriving DecidableEq, Repr

structure EventTime where
  utc : Option Int
  «local» : Option Int
deriving DecidableEq, Repr

structure GenericStatus where
  status : GenericStatusText
  eventTime : EventTime
deriving DecidableEq, Repr

structure FlightStatus where
  live : Bool
  text : String
  icon : String
  estimated : Option Bool
  ambiguous : Option Bool
  generic : Option GenericStatus
deriving DecidableEq, Repr

structure AircraftModel where
  code : String
  text : String
deriving DecidableEq, Repr

structure Thumbnail where
  src : String
  link : String
  copyright : String
  source : String
deriving DecidableEq, Repr

structure AircraftImages where
  thumbnails : List Thumbnail
deriving DecidableEq, Repr

structure FlightAircraft where
  model : AircraftModel
  registration : String
  images : Option AircraftImages
deriving DecidableEq, Repr

structure FlightAirline where
  name : String
  code : CodePair
deriving DecidableEq, Repr

structure CountryRef where
  name : String
  code : String
deriving DecidableEq, Repr

structure RegionRef where
  city : String
deriving DecidableEq, Repr

structure AirportPosition where
  latitude : Int
  longitude : Int
  altitude : Int
  country : CountryRef
  region : RegionRef
deriving DecidableEq, Repr

structure TimezoneRef where
  name : String
  offset : Int
  abbr : String
deriving DecidableEq, Repr

structure AirportRef where
  name : String
  code : CodePair
  position : AirportPosition
  timezone : TimezoneRef
  visible : Bool
deriving DecidableEq, Repr

structure FlightAirports where
  origin : AirportRef
  destination : AirportRef
deriving DecidableEq, Repr

structure TimePair where
  departure : Int
  arrival : Int
deriving DecidableEq, Repr

structure OptTimePair where
  departure : Option Int
  arrival : Option Int
deriving DecidableEq, Repr

structure OtherTimes where
  eta : Option Int
  updated : Option Int
deriving DecidableEq, Repr

structure FlightTimes where
  scheduled : TimePair
  real : OptTimePair
  estimated : OptTimePair
  other : OtherTimes
deriving DecidableEq, Repr

structure TrailPoint where
  lat : Int
  lng : Int
  alt : Int
  spd : Int
  ts : Int
  hd : Int
deriving DecidableEq, Repr

/-- `FlightDetails`: rich record returned by the single-flight lookup. -/
structure FlightDetails where
  identification : FlightIdentification
  status : FlightStatus
  aircraft : FlightAircraft
  airline : FlightAirline
  airport : FlightAirports
  time : FlightTimes
  trail : Option (List TrailPoint)
deriving DecidableEq, Repr

/-- `AirportData`. -/
structure AirportData where
  name : String
  iata : String
  icao : String
  lat : Int
  lng : Int
  country : String
  alt : Int
deriving DecidableEq, Repr

/-- `AirlineData`. -/
structure AirlineData where
  name : String
  code : CodePair
  country : String
deriving DecidableEq, Repr

/-- `AircraftData`. -/
structure AircraftData where
  registration : String
  type : String
  manufacturer : String
  model : String
  owner : String
  «operator» : String
  age : Int
  msn : String
deriving DecidableEq, Repr

/-- `FlightSearchParams`: the query-parameter object of `searchFlights`;
every field is optional in the interface. -/
structure GeoBounds where
  north : Int
  south : Int
  west : Int
  east : Int
deriving DecidableEq, Repr

structure FlightSearchParams where
  airline_iata : Option String
  airline_icao : Option String
  flight_number : Option String
  flight_iata : Option String
  flight_icao : Option String
  registration : Option String
  bounds : Option GeoBounds
  limit : Option Int
deriving DecidableEq, Repr

/-- `AirportSearchParams`: the query-parameter object of `searchAirports`. -/
structure AirportSearchParams where
  iata : Option String
  icao : Option String
  name : Option String
  country : Option String
  limit : Option Int
deriving DecidableEq, Repr

/-! ## Response envelopes

Each operation casts `response.data` to a nested envelope type and then
checks every level for falsiness (`!response || !response.result || ...`);
each level is therefore an `Option` here. -/

/-- Wrapper for an envelope level named `result`. -/
structure ResultWrap (α : Type) where
  result : Option α
deriving DecidableEq, Repr

/-- Wrapper for an envelope level named `response`. -/
structure ResponseWrap (α : Type) where
  response : Option α
deriving DecidableEq, Repr

/-- The innermost level `{ flights: FlightData[] }` of the search and zone
envelopes. -/
structure FlightsInner where
  flights : Option (List FlightData)
deriving DecidableEq, Repr

/-- The innermost level `{ airport: AirportData }`. -/
structure AirportInner where
  airport : Option AirportData
deriving DecidableEq, Repr

/-- The innermost level `{ airports: AirportData[] }`. -/
structure AirportsInner where
  airports : Option (List AirportData)
deriving DecidableEq, Repr

/-- The innermost level `{ airline: AirlineData }`. -/
structure AirlineInner where
  airline : Option AirlineData
deriving DecidableEq, Repr

/-- The innermost level `{ aircraft: AircraftData }`. -/
structure AircraftInner where
  aircraft : Option AircraftData
deriving DecidableEq, Repr

/-- Envelope type of the flight-detail response. -/
abbrev FlightInfoEnvelope := Option (ResultWrap FlightDetails)

/-- Envelope type of the flight-search and zone responses. -/
abbrev FlightsEnvelope := Option (ResultWrap (ResponseWrap FlightsInner))

/-- Envelope type of the airport-detail response. -/
abbrev AirportEnvelope := Option (ResultWrap (ResponseWrap AirportInner))

/-- Envelope type of the airport-search response. -/
abbrev AirportsEnvelope := Option (ResultWrap (ResponseWrap AirportsInner))

/-- Envelope type of the airline-detail response. -/
abbrev AirlineEnvelope := Option (ResultWrap (ResponseWrap AirlineInner))

/-- Envelope type of the aircraft-detail response. -/
abbrev AircraftEnvelope := Option (ResultWrap (ResponseWrap AircraftInner))

/-- The terminal object of the flight-detail envelope: the value at path
`result`, or `none` when any level is absent. -/
def terminalFlightDetail (v : FlightInfoEnvelope) : Option FlightDetails :=
  v.bind ResultWrap.result

/-- The terminal value at path `result.response.<f>` of a three-level
envelope, or `none` when any level along the path is absent. -/
def envPath3 {α γ : Type} (f : α → Option γ)
    (v : Option (ResultWrap (ResponseWrap α))) : Option γ :=
  ((v.bind ResultWrap.result).bind ResponseWrap.response).bind f

/-! ## Domain mapping operations (methods of `Flightradar24ApiClient`) -/

/-- `getFlightData`: GET `/flight/info/{flightId}` with no parameters; throws
"No flight data found" if the response or its `result` field is absent,
otherwise returns `response.result`. -/
def getFlightData (cfg : ClientConfig)
    (net : Nat → HttpOutcome (Option (ResultWrap FlightDetails)))
    (flightId : String) : RunResult FlightDetails (List (String × String)) :=
  let endpoint := ENDPOINTS.FLIGHT_INFO ++ "/" ++ flightId
  let r := makeRequest cfg net endpoint [] 0 0
  { result :=
      match r.result with
      | .error e => .error e
      | .ok response =>
        match response with
        | none => .error (.mcpError ⟨.InvalidRequest,
            "No flight data found for flight ID: " ++ flightId⟩)
        | some env =>
          match env.result with
          | none => .error (.mcpError ⟨.InvalidRequest,
              "No flight data found for flight ID: " ++ flightId⟩)
          | some d => .ok d
    requests := r.requests
    delays := r.delays }

/-- `searchFlights`: GET `/flights` with the search-parameter object; any
break in the `result.response.flights` chain yields `[]`. -/
def searchFlights (cfg : ClientConfig)
    (net : Nat → HttpOutcome (Option (ResultWrap (ResponseWrap FlightsInner))))
    (params : FlightSearchParams) :
    RunResult (List FlightData) FlightSearchParams :=
  let endpoint := ENDPOINTS.FLIGHT_DATA
  let r := makeRequest cfg net endpoint params 0 0
  { result :=
      match r.result with
      | .error e => .error e
      | .ok response =>
        match response with
        | none => .ok []
        | some env =>
          match env.result with
          | none => .ok []
          | some rs =>
            match rs.response with
            | none => .ok []
            | some inner =>
              match inner.flights with
              | none => .ok []
              | some fl => .ok fl
    requests := r.requests
    delays := r.delays }

/-- `getAirportData`: the parameter object is `{iata}` when the code has
length 3, `{icao}` otherwise; a break in `result.response.airport` throws
"No airport data found". -/
def getAirportData (cfg : ClientConfig)
    (net : Nat → HttpOutcome (Option (ResultWrap (ResponseWrap AirportInner))))
    (airportCode : String) : RunResult AirportData (List (String × String)) :=
  let isIATA : Bool := airportCode.length == 3
  let params := if isIATA then [("iata", airportCode)] else [("icao", airportCode)]
  let endpoint := ENDPOINTS.AIRPORT_DATA
  let r := makeRequest cfg net endpoint params 0 0
  { result :=
      match r.result with
      | .error e => .error e
      | .ok response =>
        match response with
        | none => .error (.mcpError ⟨.InvalidRequest,
            "No airport data found for airport code: " ++ airportCode⟩)
        | some env =>
          match env.result with
          | none => .error (.mcpError ⟨.InvalidRequest,
              "No airport data found for airport code: " ++ airportCode⟩)
          | some rs =>
            match rs.response with
            | none => .error (.mcpError ⟨.InvalidRequest,
                "No airport data found for airport code: " ++ airportCode⟩)
            | some inner =>
              match inner.airport with
              | none => .error (.mcpError ⟨.InvalidRequest,
                  "No airport data found for airport code: " ++ airportCode⟩)
              | some a => .ok a
    requests := r.requests
    delays := r.delays }

/-- `searchAirports`: GET `/airports` with the search-parameter object; any
break in `result.response.airports` yields `[]`. -/
def searchAirports (cfg : ClientConfig)
    (net : Nat → HttpOutcome (Option (ResultWrap (ResponseWrap AirportsInner))))
    (params : AirportSearchParams) :
    RunResult (List AirportData) AirportSearchParams :=
  let endpoint := ENDPOINTS.AIRPORT_DATA
  let r := makeRequest cfg net endpoint params 0 0
  { result :=
      match r.result with
      | .error e => .error e
      | .ok response =>
        match response with
        | none => .ok []
        | some env =>
          match env.result with
          | none => .ok []
          | some rs =>
            match rs.response with
            | none => .ok []
            | some inner =>
              match inner.airports with
              | none => .ok []
              | some as' => .ok as'
    requests := r.requests
    delays := r.delays }

/-- `getAirlineData`: the parameter object is `{iata}` when the code has
length 2, `{icao}` otherwise; a break in `result.response.airline` throws
"No airline data found". -/
def getAirlineData (cfg : ClientConfig)
    (net : Nat → HttpOutcome (Option (ResultWrap (ResponseWrap AirlineInner))))
    (airlineCode : String) : RunResult AirlineData (List (String × String)) :=
  let isIATA : Bool := airlineCode.length == 2
  let params := if isIATA then [("iata", airlineCode)] else [("icao", airlineCode)]
  let endpoint := ENDPOINTS.AIRLINE_DATA
  let r := makeRequest cfg net endpoint params 0 0
  { result :=
      match r.result with
      | .error e => .error e
      | .ok response =>
        match response with
        | none => .error (.mcpError ⟨.InvalidRequest,
            "No airline data found for airline code: " ++ airlineCode⟩)
        | some env =>
          match env.result with
          | none => .error (.mcpError ⟨.InvalidRequest,
              "No airline data found for airline code: " ++ airlineCode⟩)
          | some rs =>
            match rs.response with
            | none => .error (.mcpError ⟨.InvalidRequest,
                "No airline data found for airline code: " ++ airlineCode⟩)
            | some inner =>
              match inner.airline with
              | none => .error (.mcpError ⟨.InvalidRequest,
                  "No airline data found for airline code: " ++ airlineCode⟩)
              | some a => .ok a
    requests := r.requests
    delays := r.delays }

/-- `getAircraftData`: GET `/aircraft/{registration}` with no parameters; a
break in `result.response.aircraft` throws "No aircraft data found". -/
def getAircraftData (cfg : ClientConfig)
    (net : Nat → HttpOutcome (Option (ResultWrap (ResponseWrap AircraftInner))))
    (registration : String) : RunResult AircraftData (List (String × String)) :=
  let endpoint := ENDPOINTS.AIRCRAFT_DATA ++ "/" ++ registration
  let r := makeRequest cfg net endpoint [] 0 0
  { result :=
      match r.result with
      | .error e => .error e
      | .ok response =>
        match response with
        | none => .error (.mcpError ⟨.InvalidRequest,
            "No aircraft data found for registration: " ++ registration⟩)
        | some env =>
          match env.result with
          | none => .error (.mcpError ⟨.InvalidRequest,
              "No aircraft data found for registration: " ++ registration⟩)
          | some rs =>
            match rs.response with
            | none => .error (.mcpError ⟨.InvalidRequest,
                "No aircraft data found for registration: " ++ registration⟩)
            | some inner =>
              match inner.aircraft with
              | none => .error (.mcpError ⟨.InvalidRequest,
                  "No aircraft data found for registration: " ++ registration⟩)
              | some a => .ok a
    requests := r.requests
    delays := r.delays }

/-- The `bounds` query-parameter string of `getFlightsInZone`: the template
literal joining north, south, west, east with commas, in that order. -/
def boundsParam (bounds : GeoBounds) : String :=
  toString bounds.north ++ "," ++ toString bounds.south ++ "," ++
    toString bounds.west ++ "," ++ toString bounds.east

/-- `getFlightsInZone`: GET `/zones` with the comma-joined bounds string and
no validation of the values; any break in `result.response.flights` yields
`[]`. -/
def getFlightsInZone (cfg : ClientConfig)
    (net : Nat → HttpOutcome (Option (ResultWrap (ResponseWrap FlightsInner))))
    (bounds : GeoBounds) : RunResult (List FlightData) (List (String × String)) :=
  let endpoint := ENDPOINTS.ZONES
  let params := [("bounds", boundsParam bounds)]
  let r := makeRequest cfg net endpoint params 0 0
  { result :=
      match r.result with
      | .error e => .error e
      | .ok response =>
        match response with
        | none => .ok []
        | some env =>
          match env.result with
          | none => .ok []
          | some rs =>
            match rs.response with
            | none => .ok []
            | some inner =>
              match inner.flights with
              | none => .ok []
              | some fl => .ok fl
    requests := r.requests
    delays := r.delays }

/-! ## Caller layer (tool entry points of src/tools)

These embeddings model the validation and parameter-defaulting logic that
runs before the core is invoked, returning the core call's `RunResult`
unformatted: the presentation-JSON step of each tool is outside the claims
considered here. A thrown `McpError` is the `Except.error` case, in which
the core is never reached and no request is issued. -/

/-- JavaScript falsiness of an optional string argument (`!args.x`):
`undefined` or the empty string. -/
def strFalsy : Option String → Bool
  | none => true
  | some s => s == ""

/-- JavaScript `args.limit || 10`: an absent or zero limit becomes 10. -/
def defaultedLimit : Option Int → Int
  | none => 10
  | some l => if l = 0 then 10 else l

/-- The bounds checks of `searchFlightsTool` (`if (args.bounds) { ... }`):
the first failing check's error, if any. -/
def validateSearchBounds : Option GeoBounds → Option McpError
  | none => none
  | some b =>
    if b.north < b.south then
      some ⟨.InvalidParams,
        "Northern latitude must be greater than or equal to southern latitude."⟩
    else if b.east < b.west then
      some ⟨.InvalidParams,
        "Eastern longitude must be greater than or equal to western longitude."⟩
    else none

/-- `searchFlightsTool` of src/tools/flight-search.ts: requires at least one
search argument, validates bounds when present, defaults the limit with
`args.limit || 10`, and calls `searchFlights` with `{ ...args, limit }`. -/
def searchFlightsTool (cfg : ClientConfig)
    (net : Nat → HttpOutcome (Option (ResultWrap (ResponseWrap FlightsInner))))
    (args : FlightSearchParams) :
    Except McpError (RunResult (List FlightData) FlightSearchParams) :=
  if strFalsy args.airline_iata && strFalsy args.airline_icao &&
      strFalsy args.flight_number && strFalsy args.flight_iata &&
      strFalsy args.flight_icao && strFalsy args.registration &&
      args.bounds.isNone then
    .error ⟨.InvalidParams, "At least one search parameter must be provided."⟩
  else
    match validateSearchBounds args.bounds with
    | some e => .error e
    | none =>
      let limit := defaultedLimit args.limit
      .ok (searchFlights cfg net { args with limit := some limit })

/-- `searchAirportsTool` (airport-info tools file): requires at least one of
name/country/iata/icao, defaults the limit with `args.limit || 10`, and
calls `searchAirports` with `{ ...args, limit }`. -/
def searchAirportsTool (cfg : ClientConfig)
    (net : Nat → HttpOutcome (Option (ResultWrap (ResponseWrap AirportsInner))))
    (args : AirportSearchParams) :
    Except McpError (RunResult (List AirportData) AirportSearchParams) :=
  if strFalsy args.name && strFalsy args.country && strFalsy args.iata &&
      strFalsy args.icao then
    .error ⟨.InvalidParams, "At least one search parameter must be provided."⟩
  else
    let limit := defaultedLimit args.limit
    .ok (searchAirports cfg net { args with limit := some limit })

/-- `getFlightsInZoneTool` of src/tools/flight-search.ts: validates the four
bounds (ordering, then latitude range, then longitude range) and only then
calls `getFlightsInZone` with the same four values. -/
def getFlightsInZoneTool (cfg : ClientConfig)
    (net : Nat → HttpOutcome (Option (ResultWrap (ResponseWrap FlightsInner))))
    (north south west east : Int) :
    Except McpError (RunResult (List FlightData) (List (String × String))) :=
  if north < south then
    .error ⟨.InvalidParams,
      "Northern latitude must be greater than or equal to southern latitude."⟩
  else if east < west then
    .error ⟨.InvalidParams,
      "Eastern longitude must be greater than or equal to western longitude."⟩
  else if north > 90 ∨ south < -90 then
    .error ⟨.InvalidParams, "Latitude must be between -90 and 90 degrees."⟩
  else if east > 180 ∨ west < -180 then
    .error ⟨.InvalidParams, "Longitude must be between -180 and 180 degrees."⟩
  else
    .ok (getFlightsInZone cfg net ⟨north, south, west, east⟩)

/-! ## Concrete network oracles for closed instances -/

/-- The oracle answering every call with the same outcome. -/
def constNet {β : Type} (o : HttpOutcome β) : Nat → HttpOutcome β := fun _ => o

/-- The oracle answering 429 with body `d` for the first `k` calls and 2xx
with body `b` afterwards. -/
def stepNet {β : Type} (k : Nat) (d : String) (b : β) : Nat → HttpOutcome β :=
  fun n => if n < k then .status 429 d else .ok b

/-- Example flight-search arguments: one filter set, an explicit limit 0. -/
def exampleFlightArgs : FlightSearchParams :=
  { airline_iata := none, airline_icao := none, flight_number := none,
    flight_iata := some "BA123", flight_icao := none, registration := none,
    bounds := none, limit := some 0 }

/-- Example airport-search arguments: one filter set, an explicit limit 0. -/
def exampleAirportArgs : AirportSearchParams :=
  { iata := none, icao := none, name := some "Heathrow", country := none,
    limit := some 0 }

/-! ## Step lemmas for `makeRequest` -/

theorem constNet_eq {β : Type} (o : HttpOutcome β) (n : Nat) : constNet o n = o := rfl

theorem stepNet_lt {β : Type} (k : Nat) (d : String) (b : β) (n : Nat)
    (h : n < k) : stepNet k d b n = .status 429 d := by
  simp [stepNet, h]

theorem stepNet_ge {β : Type} (k : Nat) (d : String) (b : β) (n : Nat)
    (h : ¬ n < k) : stepNet k d b n = .ok b := by
  simp [stepNet, h]

theorem makeRequest_step_ok {β π : Type} {cfg : ClientConfig}
    {net : Nat → HttpOutcome β} {e : String} {p : π} {rc ci : Nat} {b : β}
    (h : net ci = .ok b) :
    makeRequest cfg net e p rc ci = ⟨.ok b, [(e, p)], []⟩ := by
  rw [makeRequest.eq_def, h]

theorem makeRequest_step_retry {β π : Type} {cfg : ClientConfig}
    {net : Nat → HttpOutcome β} {e : String} {p : π} {rc ci : Nat} {d : String}
    (h : net ci = .status 429 d) (hrc : rc < cfg.maxRetries) :
    makeRequest cfg net e p rc ci =
      ⟨(makeRequest cfg net e p (rc + 1) (ci + 1)).result,
        (e, p) :: (makeRequest cfg net e p (rc + 1) (ci + 1)).requests,
        cfg.retryDelay * 2 ^ rc :: (makeRequest cfg net e p (rc + 1) (ci + 1)).delays⟩ := by
  rw [makeRequest.eq_def, h]
  simp [hrc]

theorem makeRequest_step_429_exhausted {β π : Type} {cfg : ClientConfig}
    {net : Nat → HttpOutcome β} {e : String} {p : π} {rc ci : Nat} {d : String}
    (h : net ci = .status 429 d) (hrc : ¬ rc < cfg.maxRetries) :
    makeRequest cfg net e p rc ci =
      ⟨.error (.mcpError ⟨.InternalError,
          ERROR_MESSAGES.API_ERROR ++ ": " ++ toString (429 : Nat) ++ " - " ++ d⟩),
        [(e, p)], []⟩ := by
  rw [makeRequest.eq_def, h]
  simp [hrc]

theorem makeRequest_step_401 {β π : Type} {cfg : ClientConfig}
    {net : Nat → HttpOutcome β} {e : String} {p : π} {rc ci : Nat} {d : String}
    (h : net ci = .status 401 d) :
    makeRequest cfg net e p rc ci =
      ⟨.error (.mcpError ⟨.InvalidRequest, ERROR_MESSAGES.INVALID_API_KEY⟩),
        [(e, p)], []⟩ := by
  rw [makeRequest.eq_def, h]
  norm_num

/-! ## Invariants of the retry loop -/

theorem makeRequest_requests_bounded {β π : Type} (cfg : ClientConfig)
    (net : Nat → HttpOutcome β) (e : String) (p : π) :
    ∀ n rc ci, cfg.maxRetries - rc ≤ n →
      ∀ r ∈ (makeRequest cfg net e p rc ci).requests, r = (e, p) := by
  intro n
  induction n with
  | zero =>
    intro rc ci hle r hr
    rw [makeRequest.eq_def] at hr
    split at hr
    · simpa using hr
    · split at hr
      · rename_i hcond
        exact absurd hcond.2 (by omega)
      · split at hr <;> simpa using hr
    · simpa using hr
    · simpa using hr
  | succ n ih =>
    intro rc ci hle r hr
    rw [makeRequest.eq_def] at hr
    split at hr
    · simpa using hr
    · split at hr
      · rename_i hcond
        simp only [List.mem_cons] at hr
        rcases hr with hr | hr
        · exact hr
        · exact ih (rc + 1) (ci + 1) (by omega) r hr
      · split at hr <;> simpa using hr
    · simpa using hr
    · simpa using hr

theorem makeRequest_requests_eq {β π : Type} (cfg : ClientConfig)
    (net : Nat → HttpOutcome β) (e : String) (p : π) (rc ci : Nat) :
    ∀ r ∈ (makeRequest cfg net e p rc ci).requests, r = (e, p) :=
  makeRequest_requests_bounded cfg net e p (cfg.maxRetries - rc) rc ci le_rfl

theorem makeRequest_ok_bounded {β π : Type} (cfg : ClientConfig)
    (net : Nat → HttpOutcome β) (e : String) (p : π) :
    ∀ n rc ci b, cfg.maxRetries - rc ≤ n →
      (makeRequest cfg net e p rc ci).result = .ok b →
      ∃ j, net (ci + j) = .ok b ∧
        ∀ i, i < j → ∃ d, net (ci + i) = .status 429 d := by
  intro n
  induction n with
  | zero =>
    intro rc ci b hle h
    rw [makeRequest.eq_def] at h
    split at h
    · rename_i body hnet
      simp only at h
      have hb : body = b := by simpa using h
      exact ⟨0, by rw [Nat.add_zero, hnet, hb],
        by intro i hi; exact absurd hi (Nat.not_lt_zero i)⟩
    · split at h
      · rename_i hcond
        exact absurd hcond.2 (by omega)
      · split at h <;> simp at h
    · simp at h
    · simp at h
  | succ n ih =>
    intro rc ci b hle h
    rw [makeRequest.eq_def] at h
    split at h
    · rename_i body hnet
      simp only at h
      have hb : body = b := by simpa using h
      exact ⟨0, by rw [Nat.add_zero, hnet, hb],
        by intro i hi; exact absurd hi (Nat.not_lt_zero i)⟩
    · rename_i s d hnet
      split at h
      · rename_i hcond
        simp only at h
        obtain ⟨j, hj, hprev⟩ := ih (rc + 1) (ci + 1) b (by omega) h
        refine ⟨j + 1, ?_, ?_⟩
        · have hadd : ci + (j + 1) = ci + 1 + j := by omega
          rw [hadd]; exact hj
        · intro i hi
          match i with
          | 0 =>
            refine ⟨d, ?_⟩
            rw [Nat.add_zero, hnet, hcond.1]
          | i' + 1 =>
            obtain ⟨d', hd'⟩ := hprev i' (by omega)
            refine ⟨d', ?_⟩
            have hadd : ci + (i' + 1) = ci + 1 + i' := by omega
            rw [hadd]; exact hd'
      · split at h <;> simp at h
    · simp at h
    · simp at h

theorem makeRequest_ok_first_success {β π : Type} (cfg : ClientConfig)
    (net : Nat → HttpOutcome β) (e : String) (p : π) (rc ci : Nat) (b : β)
    (h : (makeRequest cfg net e p rc ci).result = .ok b) :
    ∃ j, net (ci + j) = .ok b ∧
      ∀ i, i < j → ∃ d, net (ci + i) = .status 429 d :=
  makeRequest_ok_bounded cfg net e p (cfg.maxRetries - rc) rc ci b le_rfl h

/-! ## Claim theorems -/

/-- Claim C8: constructing the client with an empty credential fails
immediately with the missing-key configuration error (`InvalidParams`,
`MISSING_API_KEY`), and any non-empty credential yields exactly the fixed
configuration: the flightradar24 base URL, the given key, 10 s timeout,
1 s initial retry delay, 3 max retries. The embedding is purely
functional and the client class assigns these fields only in its
constructor, so the configuration is never mutated afterwards. -/
theorem mkClient_empty_fails_nonempty_fixed_config :
    mkClient "" = .error ⟨.InvalidParams, ERROR_MESSAGES.MISSING_API_KEY⟩ ∧
    ∀ k : String, k ≠ "" →
      mkClient k = .ok
        { apiKey := k
          baseUrl := "https://api.flightradar24.com/v1"
          timeout := 10000
          retryDelay := 1000
          maxRetries := 3 } := by
  refine ⟨rfl, fun k hk => ?_⟩
  simp [mkClient, defaultClient, hk]

theorem mkClient_empty_fails_nonempty_fixed_config_witness :
    mkClient "" = .error ⟨.InvalidParams, ERROR_MESSAGES.MISSING_API_KEY⟩ ∧
    mkClient "key123" = .ok
      { apiKey := "key123"
        baseUrl := "https://api.flightradar24.com/v1"
        timeout := 10000
        retryDelay := 1000
        maxRetries := 3 } :=
  ⟨mkClient_empty_fails_nonempty_fixed_config.1,
   mkClient_empty_fails_nonempty_fixed_config.2 "key123" (by decide)⟩

/-- Claim C6: a 401 response makes the chain fail at once with the
authentication error (`InvalidRequest`, `INVALID_API_KEY`) after exactly one
network call, whatever the current attempt count: the request list is a
singleton and no backoff sleep happens. -/
theorem auth_error_immediate {β π : Type} (cfg : ClientConfig)
    (net : Nat → HttpOutcome β) (e : String) (p : π) (rc ci : Nat)
    (d : String) (h : net ci = .status 401 d) :
    makeRequest cfg net e p rc ci =
      ⟨.error (.mcpError ⟨.InvalidRequest, ERROR_MESSAGES.INVALID_API_KEY⟩),
        [(e, p)], []⟩ :=
  makeRequest_step_401 h

theorem auth_error_immediate_witness :
    makeRequest (defaultClient "k")
      (fun _ => (HttpOutcome.status 401 "denied" : HttpOutcome String))
      "/flights" ([] : List (String × String)) 0 0 =
      ⟨.error (.mcpError ⟨.InvalidRequest, ERROR_MESSAGES.INVALID_API_KEY⟩),
        [("/flights", [])], []⟩ :=
  auth_error_immediate (defaultClient "k")
    (fun _ => (HttpOutcome.status 401 "denied" : HttpOutcome String))
    "/flights" [] 0 0 "denied" rfl

/-- Claim C4: when the first three attempts get 429 and the fourth gets a
2xx body, the chain returns that body after exactly three sleeps of
1000, 2000, 4000 ms (`retryDelay * 2 ^ attempt` for attempts 0, 1, 2),
issuing four identical requests; only 429 triggers a retry and the
attempt count increments each time. -/
theorem retry_three_429_then_success {β π : Type} (k : String)
    (net : Nat → HttpOutcome β) (e : String) (p : π) (b : β)
    (d0 d1 d2 : String)
    (h0 : net 0 = .status 429 d0) (h1 : net 1 = .status 429 d1)
    (h2 : net 2 = .status 429 d2) (h3 : net 3 = .ok b) :
    makeRequest (defaultClient k) net e p 0 0 =
      ⟨.ok b, [(e, p), (e, p), (e, p), (e, p)], [1000, 2000, 4000]⟩ := by
  rw [makeRequest_step_retry h0 (by norm_num [defaultClient]),
      makeRequest_step_retry h1 (by norm_num [defaultClient]),
      makeRequest_step_retry h2 (by norm_num [defaultClient]),
      makeRequest_step_ok h3]
  norm_num [defaultClient]

theorem retry_three_429_then_success_witness :
    makeRequest (defaultClient "k")
      (fun n => if n < 3 then HttpOutcome.status 429 "r" else .ok "P")
      "/flights" ([] : List (String × String)) 0 0 =
      ⟨.ok "P", [("/flights", []), ("/flights", []), ("/flights", []), ("/flights", [])],
        [1000, 2000, 4000]⟩ :=
  retry_three_429_then_success "k"
    (fun n => if n < 3 then HttpOutcome.status 429 "r" else .ok "P")
    "/flights" [] "P" "r" "r" "r" rfl rfl rfl rfl

/-- Claim C1 (code bug): with every attempt answered 429, the chain does
stop after the fourth consecutive 429 — exactly four requests, three
sleeps — but the failure surfaced is the generic upstream-API error
(`InternalError` with the `API_ERROR` message carrying status 429), not a
rate-limit-specific error: the `RATE_LIMIT_EXCEEDED` message defined in
`ERROR_MESSAGES` is never used. -/
theorem rate_limit_exhaustion_surfaces_generic_error :
    makeRequest (defaultClient "key")
      (fun _ => (HttpOutcome.status 429 "body" : HttpOutcome String))
      "/flights" ([] : List (String × String)) 0 0 =
      ⟨.error (.mcpError ⟨.InternalError, "Flightradar24 API error: 429 - body"⟩),
        [("/flights", []), ("/flights", []), ("/flights", []), ("/flights", [])],
        [1000, 2000, 4000]⟩ ∧
    "Flightradar24 API error: 429 - body" ≠ ERROR_MESSAGES.RATE_LIMIT_EXCEEDED := by
  constructor
  · rw [makeRequest_step_retry rfl (by norm_num [defaultClient]),
        makeRequest_step_retry rfl (by norm_num [defaultClient]),
        makeRequest_step_retry rfl (by norm_num [defaultClient]),
        makeRequest_step_429_exhausted rfl (by norm_num [defaultClient])]
    norm_num [defaultClient]
    rfl
  · decide

/-- Claim C9: every request a retry chain issues carries exactly the
original endpoint and query parameters, and when a payload is returned it
is the body of the first non-429 response: every call before it in the
chain was answered 429. -/
theorem retry_chain_invariant {β π : Type} (cfg : ClientConfig)
    (net : Nat → HttpOutcome β) (e : String) (p : π) (rc ci : Nat) :
    (∀ r ∈ (makeRequest cfg net e p rc ci).requests, r = (e, p)) ∧
    (∀ b, (makeRequest cfg net e p rc ci).result = .ok b →
      ∃ j, net (ci + j) = .ok b ∧
        ∀ i, i < j → ∃ d, net (ci + i) = .status 429 d) :=
  ⟨makeRequest_requests_eq cfg net e p rc ci,
   fun b h => makeRequest_ok_first_success cfg net e p rc ci b h⟩

theorem retry_chain_invariant_witness :
    ("/flights", "q") = ("/flights", "q") ∧
    (∃ j, stepNet 1 "r" "B" (0 + j) = HttpOutcome.ok "B" ∧
      ∀ i, i < j → ∃ d, stepNet 1 "r" "B" (0 + i) = HttpOutcome.status 429 d) := by
  constructor
  · exact (retry_chain_invariant (defaultClient "k") (stepNet 1 "r" "B")
      "/flights" "q" 0 0).1 ("/flights", "q")
      (by rw [makeRequest_step_retry (stepNet_lt 1 "r" "B" 0 (by norm_num))
                (by norm_num [defaultClient]),
              makeRequest_step_ok (stepNet_ge 1 "r" "B" (0 + 1) (by norm_num))]
          simp)
  · exact (retry_chain_invariant (defaultClient "k") (stepNet 1 "r" "B")
      "/flights" "q" 0 0).2 "B"
      (by rw [makeRequest_step_retry (stepNet_lt 1 "r" "B" 0 (by norm_num))
                (by norm_num [defaultClient]),
              makeRequest_step_ok (stepNet_ge 1 "r" "B" (0 + 1) (by norm_num))])

/-- Claim C5: the airport lookup sends the `iata` parameter exactly when the
code string has length 3 and `icao` for any other length; the airline
lookup sends `iata` exactly when the length is 2 and `icao` otherwise. The
parameter choice in both mappings depends only on the string's length — no
character-set validation happens there. -/
theorem code_length_selects_iata_or_icao :
    (∀ (cfg : ClientConfig) net (code : String),
      ∀ r ∈ (getAirportData cfg net code).requests,
        r = (ENDPOINTS.AIRPORT_DATA,
          if code.length = 3 then [("iata", code)] else [("icao", code)])) ∧
    (∀ (cfg : ClientConfig) net (code : String),
      ∀ r ∈ (getAirlineData cfg net code).requests,
        r = (ENDPOINTS.AIRLINE_DATA,
          if code.length = 2 then [("iata", code)] else [("icao", code)])) := by
  constructor
  · intro cfg net code r hr
    simp only [getAirportData] at hr
    have h := makeRequest_requests_eq cfg net ENDPOINTS.AIRPORT_DATA _ 0 0 r hr
    rw [h]
    by_cases h3 : code.length = 3 <;> simp [h3]
  · intro cfg net code r hr
    simp only [getAirlineData] at hr
    have h := makeRequest_requests_eq cfg net ENDPOINTS.AIRLINE_DATA _ 0 0 r hr
    rw [h]
    by_cases h2 : code.length = 2 <;> simp [h2]

theorem code_length_selects_iata_or_icao_witness :
    ("/airports", [("iata", "LHR")]) =
      (ENDPOINTS.AIRPORT_DATA,
        if ("LHR".length = 3) then [("iata", "LHR")] else [("icao", "LHR")]) ∧
    ("/airlines", [("icao", "BAW")]) =
      (ENDPOINTS.AIRLINE_DATA,
        if ("BAW".length = 2) then [("iata", "BAW")] else [("icao", "BAW")]) := by
  constructor
  · exact code_length_selects_iata_or_icao.1 (defaultClient "k")
      (constNet (.ok (none : AirportEnvelope))) "LHR" ("/airports", [("iata", "LHR")])
      (by simp only [getAirportData]
          rw [makeRequest_step_ok (constNet_eq (.ok (none : AirportEnvelope)) 0)]
          decide)
  · exact code_length_selects_iata_or_icao.2 (defaultClient "k")
      (constNet (.ok (none : AirlineEnvelope))) "BAW" ("/airlines", [("icao", "BAW")])
      (by simp only [getAirlineData]
          rw [makeRequest_step_ok (constNet_eq (.ok (none : AirlineEnvelope)) 0)]
          decide)

/-- Claim C7: the core zone query performs no bounds validation — for every
bounds value, inverted or out of range, each request it issues goes to
`/zones` with the `bounds` parameter equal to the literal values
comma-joined in the order north,south,west,east — while the caller layer
(`getFlightsInZoneTool`) rejects inverted bounds (north < south) before
the core is ever invoked. -/
theorem zone_forwards_bounds_caller_validates :
    (∀ (cfg : ClientConfig) net (b : GeoBounds),
      ∀ r ∈ (getFlightsInZone cfg net b).requests,
        r = (ENDPOINTS.ZONES, [("bounds", boundsParam b)])) ∧
    (∀ (cfg : ClientConfig) net (north south west east : Int), north < south →
      getFlightsInZoneTool cfg net north south west east =
        .error ⟨.InvalidParams,
          "Northern latitude must be greater than or equal to southern latitude."⟩) := by
  constructor
  · intro cfg net b r hr
    simp only [getFlightsInZone] at hr
    exact makeRequest_requests_eq cfg net ENDPOINTS.ZONES _ 0 0 r hr
  · intro cfg net north south west east h
    simp [getFlightsInZoneTool, h]

theorem zone_forwards_bounds_caller_validates_witness :
    ("/zones", [("bounds", "10,20,0,5")]) =
      (ENDPOINTS.ZONES, [("bounds", boundsParam ⟨10, 20, 0, 5⟩)]) ∧
    getFlightsInZoneTool (defaultClient "k")
      (constNet (.ok (none : FlightsEnvelope))) 10 20 0 5 =
      .error ⟨.InvalidParams,
        "Northern latitude must be greater than or equal to southern latitude."⟩ := by
  constructor
  · exact zone_forwards_bounds_caller_validates.1 (defaultClient "k")
      (constNet (.ok (none : FlightsEnvelope))) ⟨10, 20, 0, 5⟩
      ("/zones", [("bounds", "10,20,0,5")])
      (by simp only [getFlightsInZone]
          rw [makeRequest_step_ok (constNet_eq (.ok (none : FlightsEnvelope)) 0)]
          decide)
  · exact zone_forwards_bounds_caller_validates.2 (defaultClient "k")
      (constNet (.ok (none : FlightsEnvelope))) 10 20 0 5 (by norm_num)

/-- Claim C2: for each single-entity detail operation (flight, airport,
airline, aircraft), a successful response whose envelope lacks the terminal
object at the operation's path (`result` for the flight detail,
`result.response.airport` / `.airline` / `.aircraft` for the others)
yields the operation's not-found `McpError` (`InvalidRequest` with its
"No ... found" message) — never an empty or default record. -/
theorem detail_missing_terminal_not_found :
    (∀ (cfg : ClientConfig) net (flightId : String) (v : FlightInfoEnvelope),
      net 0 = .ok v → terminalFlightDetail v = none →
      (getFlightData cfg net flightId).result =
        .error (.mcpError ⟨.InvalidRequest,
          "No flight data found for flight ID: " ++ flightId⟩)) ∧
    (∀ (cfg : ClientConfig) net (code : String) (v : AirportEnvelope),
      net 0 = .ok v → envPath3 AirportInner.airport v = none →
      (getAirportData cfg net code).result =
        .error (.mcpError ⟨.InvalidRequest,
          "No airport data found for airport code: " ++ code⟩)) ∧
    (∀ (cfg : ClientConfig) net (code : String) (v : AirlineEnvelope),
      net 0 = .ok v → envPath3 AirlineInner.airline v = none →
      (getAirlineData cfg net code).result =
        .error (.mcpError ⟨.InvalidRequest,
          "No airline data found for airline code: " ++ code⟩)) ∧
    (∀ (cfg : ClientConfig) net (reg : String) (v : AircraftEnvelope),
      net 0 = .ok v → envPath3 AircraftInner.aircraft v = none →
      (getAircraftData cfg net reg).result =
        .error (.mcpError ⟨.InvalidRequest,
          "No aircraft data found for registration: " ++ reg⟩)) := by
  refine ⟨?_, ?_, ?_, ?_⟩
  · intro cfg net flightId v hnet hterm
    simp only [getFlightData]
    rw [makeRequest_step_ok hnet]
    rcases v with _ | ⟨_ | d⟩
    · rfl
    · rfl
    · simp [terminalFlightDetail] at hterm
  · intro cfg net code v hnet hterm
    simp only [getAirportData]
    rw [makeRequest_step_ok hnet]
    rcases v with _ | ⟨_ | ⟨_ | ⟨t⟩⟩⟩
    · rfl
    · rfl
    · rfl
    · simp only [envPath3, Option.some_bind] at hterm
      simp [hterm]
  · intro cfg net code v hnet hterm
    simp only [getAirlineData]
    rw [makeRequest_step_ok hnet]
    rcases v with _ | ⟨_ | ⟨_ | ⟨t⟩⟩⟩
    · rfl
    · rfl
    · rfl
    · simp only [envPath3, Option.some_bind] at hterm
      simp [hterm]
  · intro cfg net reg v hnet hterm
    simp only [getAircraftData]
    rw [makeRequest_step_ok hnet]
    rcases v with _ | ⟨_ | ⟨_ | ⟨t⟩⟩⟩
    · rfl
    · rfl
    · rfl
    · simp only [envPath3, Option.some_bind] at hterm
      simp [hterm]

theorem detail_missing_terminal_not_found_witness :
    (getFlightData (defaultClient "k")
        (constNet (.ok (none : FlightInfoEnvelope))) "ABC123").result =
      .error (.mcpError ⟨.InvalidRequest,
        "No flight data found for flight ID: " ++ "ABC123"⟩) ∧
    (getAirportData (defaultClient "k")
        (constNet (.ok (none : AirportEnvelope))) "LHR").result =
      .error (.mcpError ⟨.InvalidRequest,
        "No airport data found for airport code: " ++ "LHR"⟩) ∧
    (getAirlineData (defaultClient "k")
        (constNet (.ok (none : AirlineEnvelope))) "BA").result =
      .error (.mcpError ⟨.InvalidRequest,
        "No airline data found for airline code: " ++ "BA"⟩) ∧
    (getAircraftData (defaultClient "k")
        (constNet (.ok (none : AircraftEnvelope))) "G-EUPT").result =
      .error (.mcpError ⟨.InvalidRequest,
        "No aircraft data found for registration: " ++ "G-EUPT"⟩) :=
  ⟨detail_missing_terminal_not_found.1 (defaultClient "k")
      (constNet (.ok none)) "ABC123" none rfl rfl,
   detail_missing_terminal_not_found.2.1 (defaultClient "k")
      (constNet (.ok none)) "LHR" none rfl rfl,
   detail_missing_terminal_not_found.2.2.1 (defaultClient "k")
      (constNet (.ok none)) "BA" none rfl rfl,
   detail_missing_terminal_not_found.2.2.2 (defaultClient "k")
      (constNet (.ok none)) "G-EUPT" none rfl rfl⟩

/-- Claim C3: for each multi-entity operation (flight search, airport
search, zone query), a successful response whose envelope lacks the
terminal array at `result.response.flights` / `.airports` — any level
absent — yields the empty list as a successful result, never a failure. -/
theorem search_missing_terminal_empty :
    (∀ (cfg : ClientConfig) net (params : FlightSearchParams)
      (v : FlightsEnvelope), net 0 = .ok v →
      envPath3 FlightsInner.flights v = none →
      (searchFlights cfg net params).result = .ok []) ∧
    (∀ (cfg : ClientConfig) net (params : AirportSearchParams)
      (v : AirportsEnvelope), net 0 = .ok v →
      envPath3 AirportsInner.airports v = none →
      (searchAirports cfg net params).result = .ok []) ∧
    (∀ (cfg : ClientConfig) net (b : GeoBounds) (v : FlightsEnvelope),
      net 0 = .ok v →
      envPath3 FlightsInner.flights v = none →
      (getFlightsInZone cfg net b).result = .ok []) := by
  refine ⟨?_, ?_, ?_⟩
  · intro cfg net params v hnet hterm
    simp only [searchFlights]
    rw [makeRequest_step_ok hnet]
    rcases v with _ | ⟨_ | ⟨_ | ⟨t⟩⟩⟩
    · rfl
    · rfl
    · rfl
    · simp only [envPath3, Option.some_bind] at hterm
      simp [hterm]
  · intro cfg net params v hnet hterm
    simp only [searchAirports]
    rw [makeRequest_step_ok hnet]
    rcases v with _ | ⟨_ | ⟨_ | ⟨t⟩⟩⟩
    · rfl
    · rfl
    · rfl
    · simp only [envPath3, Option.some_bind] at hterm
      simp [hterm]
  · intro cfg net b v hnet hterm
    simp only [getFlightsInZone]
    rw [makeRequest_step_ok hnet]
    rcases v with _ | ⟨_ | ⟨_ | ⟨t⟩⟩⟩
    · rfl
    · rfl
    · rfl
    · simp only [envPath3, Option.some_bind] at hterm
      simp [hterm]

theorem search_missing_terminal_empty_witness :
    (searchFlights (defaultClient "k")
        (constNet (.ok (none : FlightsEnvelope))) exampleFlightArgs).result =
      .ok [] ∧
    (searchAirports (defaultClient "k")
        (constNet (.ok (none : AirportsEnvelope))) exampleAirportArgs).result =
      .ok [] ∧
    (getFlightsInZone (defaultClient "k")
        (constNet (.ok (none : FlightsEnvelope))) ⟨1, 0, 0, 1⟩).result =
      .ok [] :=
  ⟨search_missing_terminal_empty.1 (defaultClient "k")
      (constNet (.ok none)) exampleFlightArgs none rfl rfl,
   search_missing_terminal_empty.2.1 (defaultClient "k")
      (constNet (.ok none)) exampleAirportArgs none rfl rfl,
   search_missing_terminal_empty.2.2 (defaultClient "k")
      (constNet (.ok none)) ⟨1, 0, 0, 1⟩ none rfl rfl⟩

/-- Claim C10: in both the flight-search and the airport-search tool entry
points a falsy caller-provided limit (absent, or 0) is silently replaced by
the default 10 before the core is invoked, so every request the core then
issues carries limit 10 — a limit of 0 never reaches the upstream
request. -/
theorem tools_default_falsy_limit :
    (∀ (cfg : ClientConfig) net (args : FlightSearchParams) r,
      (args.limit = some 0 ∨ args.limit = none) →
      searchFlightsTool cfg net args = .ok r →
      ∀ req ∈ r.requests, req.2.limit = some 10) ∧
    (∀ (cfg : ClientConfig) net (args : AirportSearchParams) r,
      (args.limit = some 0 ∨ args.limit = none) →
      searchAirportsTool cfg net args = .ok r →
      ∀ req ∈ r.requests, req.2.limit = some 10) := by
  constructor
  · intro cfg net args r hlim h req hreq
    unfold searchFlightsTool at h
    split at h
    · exact absurd h (by simp)
    · split at h
      · exact absurd h (by simp)
      · injection h with h'
        subst h'
        simp only [searchFlights] at hreq
        have heq := makeRequest_requests_eq cfg net ENDPOINTS.FLIGHT_DATA _ 0 0 req hreq
        rw [heq]
        rcases hlim with hl | hl <;> simp [defaultedLimit, hl]
  · intro cfg net args r hlim h req hreq
    unfold searchAirportsTool at h
    split at h
    · exact absurd h (by simp)
    · injection h with h'
      subst h'
      simp only [searchAirports] at hreq
      have heq := makeRequest_requests_eq cfg net ENDPOINTS.AIRPORT_DATA _ 0 0 req hreq
      rw [heq]
      rcases hlim with hl | hl <;> simp [defaultedLimit, hl]

theorem tools_default_falsy_limit_witness :
    (ENDPOINTS.FLIGHT_DATA,
      ({ exampleFlightArgs with limit := some 10 } : FlightSearchParams)).2.limit =
      some 10 ∧
    (ENDPOINTS.AIRPORT_DATA,
      ({ exampleAirportArgs with limit := some 10 } : AirportSearchParams)).2.limit =
      some 10 := by
  constructor
  · exact tools_default_falsy_limit.1 (defaultClient "k")
      (constNet (.ok (none : FlightsEnvelope))) exampleFlightArgs
      (searchFlights (defaultClient "k") (constNet (.ok (none : FlightsEnvelope)))
        { exampleFlightArgs with limit := some 10 })
      (Or.inl rfl) rfl
      (ENDPOINTS.FLIGHT_DATA, { exampleFlightArgs with limit := some 10 })
      (by simp only [searchFlights]
          rw [makeRequest_step_ok (constNet_eq (.ok (none : FlightsEnvelope)) 0)]
          decide)
  · exact tools_default_falsy_limit.2 (defaultClient "k")
      (constNet (.ok (none : AirportsEnvelope))) exampleAirportArgs
      (searchAirports (defaultClient "k") (constNet (.ok (none : AirportsEnvelope)))
        { exampleAirportArgs with limit := some 10 })
      (Or.inl rfl) rfl
      (ENDPOINTS.AIRPORT_DATA, { exampleAirportArgs with limit := some 10 })
      (by simp only [searchAirports]
          rw [makeRequest_step_ok (constNet_eq (.ok (none : AirportsEnvelope)) 0)]
          decide)

end FR24
